import Mathlib

/-!
Verification of the RL visualization frontend (and the spec of its backend
training core) in a shallow embedding.

Sources embedded here:
- src/RL_Frontend/rl_forntend/src/types/rl.types.ts (AlgorithmType, EnvironmentType)
- src/RL_Frontend/rl_forntend/src/hooks/useRealtimeTraining.ts (mapAlgorithmName,
  sendStartTraining, ws.onmessage)
- src/RL_Frontend/rl_forntend/src/services/api.ts (runAlgorithm, simulatePolicy)
- src/RL_Frontend/rl_forntend/src/redux/slices/paramSlice.ts (initialState)
- src/RL_Frontend/rl_forntend/src/redux/slices (envSlice setGridSize reducer)
- src/RL_Frontend/rl_forntend/src/utils/canvasUtils.ts (ACTION_NAMES,
  ACTION_SYMBOLS, parseStateKey, createStateKey)
- src/unnamed/part_006 (formatActionName), src/unnamed/part_004 (getArrow)

JavaScript numbers are embedded as `ℚ` (the programs compared here only copy
literals and subtract 1, which is exact), numeric indices that the code uses as
nonnegative enumerations as `Nat`, and absent (`undefined`) optional values as
`Option`.
-/

/-- The `AlgorithmType` union of rl.types.ts: the eight identifiers the user
can select in the frontend. -/
inductive AlgorithmType where
  | value_iteration
  | policy_iteration
  | mc_first_visit
  | mc_every_visit
  | mc_control
  | td_zero
  | sarsa
  | n_step_td
deriving DecidableEq

/-- The literal string of each `AlgorithmType` member. -/
def algorithmTypeId : AlgorithmType → String
  | .value_iteration => "value_iteration"
  | .policy_iteration => "policy_iteration"
  | .mc_first_visit => "mc_first_visit"
  | .mc_every_visit => "mc_every_visit"
  | .mc_control => "mc_control"
  | .td_zero => "td_zero"
  | .sarsa => "sarsa"
  | .n_step_td => "n_step_td"

/-- The `EnvironmentType` union of rl.types.ts. -/
inductive EnvironmentType where
  | gridworld
  | frozen_lake
  | breakout
deriving DecidableEq

/-- The literal string of each `EnvironmentType` member. -/
def environmentTypeId : EnvironmentType → String
  | .gridworld => "gridworld"
  | .frozen_lake => "frozen_lake"
  | .breakout => "breakout"

/-- The spec's eight stable algorithm identifiers (spec section 6). -/
def stableAlgorithmIds : List String :=
  ["value_iteration", "policy_iteration", "monte_carlo_first_visit",
   "monte_carlo_every_visit", "monte_carlo_control", "td_zero", "sarsa",
   "n_step_td"]

/-- The spec's environment identifiers (spec section 6). -/
def stableEnvironmentIds : List String :=
  ["gridworld", "frozen_lake", "breakout"]

/-- The `mapAlgorithmName` function of useRealtimeTraining.ts: the `mapping`
record is total on `AlgorithmType`, so the `|| algorithm` fallback is never
taken. -/
def mapAlgorithmName : AlgorithmType → String
  | .value_iteration => "value_iteration"
  | .policy_iteration => "policy_iteration"
  | .mc_first_visit => "monte_carlo_first_visit"
  | .mc_every_visit => "monte_carlo_every_visit"
  | .mc_control => "monte_carlo_control"
  | .td_zero => "td_zero"
  | .sarsa => "sarsa"
  | .n_step_td => "n_step_td"

/-- The `algorithm` field of the WebSocket `start_training` message built by
`sendStartTraining` in useRealtimeTraining.ts: `mapAlgorithmName(config.algorithm)`. -/
def startTrainingAlgorithmField (algorithm : AlgorithmType) : String :=
  mapAlgorithmName algorithm

/-- The `environment` field of the WebSocket `start_training` message:
`config.environment` is sent unchanged. -/
def startTrainingEnvironmentField (environment : EnvironmentType) : String :=
  environmentTypeId environment

/-- The parameter object accepted by `runAlgorithm` in api.ts
(`RunAlgorithmParams`); optional fields are `Option`. -/
structure RunAlgorithmParams where
  algorithm : AlgorithmType
  gridSize : Option ℚ
  agentPosition : Option (ℚ × ℚ)
  goalPosition : Option (ℚ × ℚ)
  gamma : Option ℚ
  theta : Option ℚ
  numEpisodes : Option ℚ
  alpha : Option ℚ
  epsilon : Option ℚ

/-- The request body object built by `runAlgorithm` in api.ts. -/
structure RunAlgorithmBody where
  algorithm : String
  grid_size : ℚ
  agent_position : ℚ × ℚ
  goal_position : ℚ × ℚ
  gamma : ℚ
  theta : ℚ
  num_episodes : ℚ
  alpha : ℚ
  epsilon : ℚ

/-- JavaScript conditional truthiness of an optional number:
`undefined` and `0` are falsy, every other number is truthy. -/
def jsTruthyNum : Option ℚ → Bool
  | none => false
  | some v => v ≠ 0

/-- The default used by api.ts for a missing goal position:
`[params.gridSize ? params.gridSize - 1 : 3, params.gridSize ? params.gridSize - 1 : 3]`. -/
def goalPositionDefault (gridSize : Option ℚ) : ℚ × ℚ :=
  ((if jsTruthyNum gridSize then gridSize.getD 0 - 1 else 3),
   (if jsTruthyNum gridSize then gridSize.getD 0 - 1 else 3))

/-- The body construction of `runAlgorithm` in api.ts (lines 70-84): each
`??` default is `Option.getD`, and the `algorithm` field is the raw
`params.algorithm` (no `mapAlgorithmName`). -/
def runAlgorithmBody (params : RunAlgorithmParams) : RunAlgorithmBody where
  algorithm := algorithmTypeId params.algorithm
  grid_size := params.gridSize.getD 4
  agent_position := params.agentPosition.getD (0, 0)
  goal_position := params.goalPosition.getD (goalPositionDefault params.gridSize)
  gamma := params.gamma.getD 0.99
  theta := params.theta.getD 0.0001
  num_episodes := params.numEpisodes.getD 1000
  alpha := params.alpha.getD 0.1
  epsilon := params.epsilon.getD 0.1

/-- A `runAlgorithm` call selecting Monte Carlo first-visit with every
optional parameter omitted. -/
def runParamsMCFirstVisit : RunAlgorithmParams :=
  ⟨AlgorithmType.mc_first_visit, none, none, none, none, none, none, none, none⟩

/-- C1 counterexample: the REST `runAlgorithm` request body transmits the raw
frontend identifier `mc_first_visit`, which is not one of the spec's eight
stable identifiers, so the claim as stated is false for the algorithm
`mc_first_visit`. -/
theorem c1_rest_body_not_stable_id :
    (runAlgorithmBody runParamsMCFirstVisit).algorithm = "mc_first_visit" ∧
    (runAlgorithmBody runParamsMCFirstVisit).algorithm ∉ stableAlgorithmIds := by
  constructor
  · rfl
  · decide

/-- C1 amended: the WebSocket `start_training` command always transmits one of
the spec's eight stable algorithm identifiers and one of the three environment
identifiers, but the REST `runAlgorithm` body transmits the raw frontend
identifier, which is a stable identifier exactly for the five non-Monte-Carlo
algorithms (the three `mc_*` identifiers differ from their stable
`monte_carlo_*` forms). -/
theorem c1_transmitted_identifiers :
    (∀ a : AlgorithmType, startTrainingAlgorithmField a ∈ stableAlgorithmIds) ∧
    (∀ e : EnvironmentType, startTrainingEnvironmentField e ∈ stableEnvironmentIds) ∧
    (∀ p : RunAlgorithmParams,
      (runAlgorithmBody p).algorithm ∈ stableAlgorithmIds ↔
        (p.algorithm ≠ AlgorithmType.mc_first_visit ∧
         p.algorithm ≠ AlgorithmType.mc_every_visit ∧
         p.algorithm ≠ AlgorithmType.mc_control)) := by
  refine ⟨fun a => ?_, fun e => ?_, fun p => ?_⟩
  · cases a <;> decide
  · cases e <;> decide
  · have h : (runAlgorithmBody p).algorithm = algorithmTypeId p.algorithm := rfl
    rw [h]
    cases p.algorithm <;> decide

/-- The `ACTION_NAMES` record of canvasUtils.ts, as a partial map on numeric
keys (a key not in the record reads back `undefined`). -/
def ACTION_NAMES : Nat → Option String
  | 0 => some "Up"
  | 1 => some "Down"
  | 2 => some "Left"
  | 3 => some "Right"
  | _ + 4 => none

/-- The `ACTION_SYMBOLS` record of canvasUtils.ts. -/
def ACTION_SYMBOLS : Nat → Option String
  | 0 => some "↑"
  | 1 => some "↓"
  | 2 => some "←"
  | 3 => some "→"
  | _ + 4 => none

/-- The `actions` record inside `formatActionName` of src/unnamed/part_006. -/
def formatActionNameTable : Nat → Option String
  | 0 => some "Up"
  | 1 => some "Down"
  | 2 => some "Left"
  | 3 => some "Right"
  | _ + 4 => none

/-- The `formatActionName` function of src/unnamed/part_006:
`actions[action] || \x7bAction $\x7baction\x7d\x7d` (every present value is a
nonempty, hence truthy, string). -/
def formatActionName (action : Nat) : String :=
  (formatActionNameTable action).getD ("Action " ++ toString action)

/-- The `arrows` record inside `getArrow` of src/unnamed/part_004. -/
def getArrowTable : Nat → Option String
  | 0 => some "↑"
  | 1 => some "↓"
  | 2 => some "←"
  | 3 => some "→"
  | _ + 4 => none

/-- The `getArrow` function of src/unnamed/part_004: `null` input gives the
empty string, otherwise `arrows[action] || ""`. -/
def getArrow (action : Option Nat) : String :=
  match action with
  | none => ""
  | some a => (getArrowTable a).getD ""

/-- C7: the grid action space rendered by the three maps is exactly
`{0, 1, 2, 3}`, `formatActionName` agrees with `ACTION_NAMES` on it, and
`getArrow` gives the matching arrow (0 = Up/↑, 1 = Down/↓, 2 = Left/←,
3 = Right/→). -/
theorem c7_action_maps_agree :
    (∀ a : Nat, (ACTION_NAMES a).isSome = true ↔ a < 4) ∧
    (∀ a : Nat, a < 4 → ACTION_NAMES a = some (formatActionName a)) ∧
    (formatActionName 0 = "Up" ∧ getArrow (some 0) = "↑") ∧
    (formatActionName 1 = "Down" ∧ getArrow (some 1) = "↓") ∧
    (formatActionName 2 = "Left" ∧ getArrow (some 2) = "←") ∧
    (formatActionName 3 = "Right" ∧ getArrow (some 3) = "→") := by
  refine ⟨fun a => ?_, fun a h => ?_, by decide, by decide, by decide, by decide⟩
  · match a with
    | 0 => decide
    | 1 => decide
    | 2 => decide
    | 3 => decide
    | n + 4 =>
      simp only [ACTION_NAMES, Option.isSome_none, Bool.false_eq_true, false_iff]
      omega
  · match a, h with
    | 0, _ => decide
    | 1, _ => decide
    | 2, _ => decide
    | 3, _ => decide

/-- C7 witness: the agreement theorem applied at the concrete action 2. -/
theorem c7_action_maps_agree_witness :
    (2 : Nat) < 4 ∧ ACTION_NAMES 2 = some (formatActionName 2) :=
  ⟨by decide, c7_action_maps_agree.2.1 2 (by decide)⟩

/-- The environment configuration held by the env slice (gridSize,
agentPosition, goalPosition); coordinates are JavaScript numbers, embedded as
integers here since the reducer only compares and subtracts 1. -/
structure EnvConfig where
  gridSize : Int
  agentPosition : Int × Int
  goalPosition : Int × Int
deriving DecidableEq

/-- The `setGridSize` reducer of the env slice: sets `gridSize` to the
payload and clamps each goal/agent coordinate that is `≥ payload` down to
`payload - 1`. -/
def setGridSize (state : EnvConfig) (payload : Int) : EnvConfig :=
  let goalX := if state.goalPosition.1 ≥ payload then payload - 1 else state.goalPosition.1
  let goalY := if state.goalPosition.2 ≥ payload then payload - 1 else state.goalPosition.2
  let agentX := if state.agentPosition.1 ≥ payload then payload - 1 else state.agentPosition.1
  let agentY := if state.agentPosition.2 ≥ payload then payload - 1 else state.agentPosition.2
  { gridSize := payload, agentPosition := (agentX, agentY), goalPosition := (goalX, goalY) }

/-- C9: for nonnegative agent/goal coordinates and a new grid size `n ≥ 1`,
`setGridSize n` leaves every coordinate in `[0, n - 1]`; coordinates that were
`≥ n` become `n - 1` and the others are unchanged. -/
theorem c9_setGridSize_clamps (state : EnvConfig) (n : Int)
    (hn : 1 ≤ n)
    (hax : 0 ≤ state.agentPosition.1) (hay : 0 ≤ state.agentPosition.2)
    (hgx : 0 ≤ state.goalPosition.1) (hgy : 0 ≤ state.goalPosition.2) :
    (0 ≤ (setGridSize state n).agentPosition.1 ∧ (setGridSize state n).agentPosition.1 ≤ n - 1) ∧
    (0 ≤ (setGridSize state n).agentPosition.2 ∧ (setGridSize state n).agentPosition.2 ≤ n - 1) ∧
    (0 ≤ (setGridSize state n).goalPosition.1 ∧ (setGridSize state n).goalPosition.1 ≤ n - 1) ∧
    (0 ≤ (setGridSize state n).goalPosition.2 ∧ (setGridSize state n).goalPosition.2 ≤ n - 1) ∧
    (setGridSize state n).agentPosition.1
      = (if state.agentPosition.1 ≥ n then n - 1 else state.agentPosition.1) ∧
    (setGridSize state n).agentPosition.2
      = (if state.agentPosition.2 ≥ n then n - 1 else state.agentPosition.2) ∧
    (setGridSize state n).goalPosition.1
      = (if state.goalPosition.1 ≥ n then n - 1 else state.goalPosition.1) ∧
    (setGridSize state n).goalPosition.2
      = (if state.goalPosition.2 ≥ n then n - 1 else state.goalPosition.2) ∧
    (setGridSize state n).gridSize = n := by
  refine ⟨?_, ?_, ?_, ?_, ?_, ?_, ?_, ?_, rfl⟩ <;>
    simp only [setGridSize] <;> first | rfl | (split_ifs <;> constructor <;> omega)

/-- An env-slice configuration used to instantiate the clamp theorem. -/
def envConfigSample : EnvConfig :=
  { gridSize := 4, agentPosition := (5, 1), goalPosition := (2, 9) }

/-- C9 witness: the clamp theorem applied to a concrete configuration with
grid size 3, where agent x (5) and goal y (9) are clamped to 2. -/
theorem c9_setGridSize_clamps_witness :
    (0 ≤ (setGridSize envConfigSample 3).agentPosition.1 ∧
      (setGridSize envConfigSample 3).agentPosition.1 ≤ 3 - 1) ∧
    (0 ≤ (setGridSize envConfigSample 3).agentPosition.2 ∧
      (setGridSize envConfigSample 3).agentPosition.2 ≤ 3 - 1) ∧
    (0 ≤ (setGridSize envConfigSample 3).goalPosition.1 ∧
      (setGridSize envConfigSample 3).goalPosition.1 ≤ 3 - 1) ∧
    (0 ≤ (setGridSize envConfigSample 3).goalPosition.2 ∧
      (setGridSize envConfigSample 3).goalPosition.2 ≤ 3 - 1) ∧
    (setGridSize envConfigSample 3).agentPosition.1
      = (if envConfigSample.agentPosition.1 ≥ 3 then 3 - 1 else envConfigSample.agentPosition.1) ∧
    (setGridSize envConfigSample 3).agentPosition.2
      = (if envConfigSample.agentPosition.2 ≥ 3 then 3 - 1 else envConfigSample.agentPosition.2) ∧
    (setGridSize envConfigSample 3).goalPosition.1
      = (if envConfigSample.goalPosition.1 ≥ 3 then 3 - 1 else envConfigSample.goalPosition.1) ∧
    (setGridSize envConfigSample 3).goalPosition.2
      = (if envConfigSample.goalPosition.2 ≥ 3 then 3 - 1 else envConfigSample.goalPosition.2) ∧
    (setGridSize envConfigSample 3).gridSize = 3 :=
  c9_setGridSize_clamps envConfigSample 3 (by decide) (by decide) (by decide)
    (by decide) (by decide)

/-- A trajectory step as consumed by `updatePositionFromStep` in
useRealtimeTraining.ts: breakout steps carry a paddle and ball position, grid
steps (gridworld and frozen-lake) carry a position. Fields the handler never
reads (action, reward, cell type) are omitted. -/
inductive TrajStep where
  | grid (position : ℚ × ℚ)
  | breakout (paddlePosition : ℚ) (ballPosition : ℚ × ℚ)
deriving DecidableEq

/-- The position dispatched by `updatePositionFromStep` for one step:
`[paddle_position, ball_position[1]]` for breakout steps, `position` for grid
steps. -/
def stepDispatchedPosition : TrajStep → ℚ × ℚ
  | .grid p => p
  | .breakout paddle ball => (paddle, ball.2)

/-- The `TrainingUpdate` message shape of useRealtimeTraining.ts; every field
except `type` is optional on the wire. -/
structure TrainingUpdate where
  type : String
  episode : Option Nat
  total_episodes : Option Nat
  progress : Option ℚ
  iteration : Option Nat
  delta : Option ℚ
  converged : Option Bool
  sample_values : Option (List (String × ℚ))
  value_function : Option (List (String × ℚ))
  policy : Option (List (String × Nat))
  avg_value : Option ℚ
  avg_reward : Option ℚ
  episode_rewards : Option (List ℚ)
  environment : Option String
  trajectory : Option (List TrajStep)

/-- JavaScript `x || d` on an optional number: `undefined` and `0` fall back
to the default. -/
def jsOrQ (o : Option ℚ) (d : ℚ) : ℚ :=
  match o with
  | none => d
  | some v => if v = 0 then d else v

/-- JavaScript `x || d` on an optional nonnegative integer. -/
def jsOrNat (o : Option Nat) (d : Nat) : Nat :=
  match o with
  | none => d
  | some v => if v = 0 then d else v

/-- JavaScript truthiness of an optional boolean: truthy exactly for
`some true`. -/
def jsTruthyBool (o : Option Bool) : Bool :=
  o.getD false

/-- JavaScript truthiness of an optional string: `undefined` and the empty
string are falsy. -/
def jsTruthyStr (o : Option String) : Bool :=
  match o with
  | none => false
  | some s => s ≠ ""

/-- The state read and written by the `ws.onmessage` handler: the algorithm
slice (valueFunction, policy, isTrained), the simulation slice progress, the
env slice current position, and the hook-local React state. Mapping-valued
fields are association lists. -/
structure HandlerState where
  valueFunction : List (String × ℚ)
  policy : List (String × Nat)
  isTrained : Bool
  progress : ℚ
  currentPosition : ℚ × ℚ
  isTraining : Bool
  currentEpisode : Nat
  totalEpisodes : Nat
  currentIteration : Nat
  currentDelta : ℚ
  avgValue : ℚ
  avgReward : ℚ
  episodeRewards : List ℚ
  deltaHistory : List ℚ
  currentEnvironment : String
  currentTrajectory : List TrajStep

/-- The progress value computed in the `dp_iteration` case:
`data.converged ? 100 : Math.min(95, (1 - Math.min(data.delta || 1, 1)) * 100)`. -/
def dpProgress (delta : Option ℚ) (converged : Option Bool) : ℚ :=
  if jsTruthyBool converged then 100
  else min 95 ((1 - min (jsOrQ delta 1) 1) * 100)

/-- The `ws.onmessage` switch of useRealtimeTraining.ts as a state transformer,
one branch per message type (the switch is embedded as a chain of equality
tests on distinct literals). The `agent_step` animation is collapsed to its
net effect: the trajectory is stored and the position dispatched for the last
animated step (the trajectory's last element) becomes the current position. -/
def onMessage (st : HandlerState) (msg : TrainingUpdate) : HandlerState :=
  if msg.type = "connection_established" then st
  else if msg.type = "training_started" then
    { st with
      isTraining := true
      totalEpisodes := jsOrNat msg.total_episodes 0
      currentEnvironment :=
        if jsTruthyStr msg.environment then msg.environment.getD "" else st.currentEnvironment }
  else if msg.type = "dp_started" then
    { st with
      isTraining := true
      currentEnvironment :=
        if jsTruthyStr msg.environment then msg.environment.getD "" else st.currentEnvironment }
  else if msg.type = "agent_step" then
    match msg.trajectory with
    | some t =>
      if t.length > 0 then
        { st with
          currentTrajectory := t
          currentPosition :=
            match t.getLast? with
            | some s => stepDispatchedPosition s
            | none => st.currentPosition }
      else st
    | none => st
  else if msg.type = "training_progress" then
    { st with
      currentEpisode := jsOrNat msg.episode 0
      totalEpisodes := jsOrNat msg.total_episodes 0
      progress := jsOrQ msg.progress 0
      avgValue := jsOrQ msg.avg_value 0
      avgReward := jsOrQ msg.avg_reward 0
      episodeRewards :=
        match msg.episode_rewards with
        | some l => if l.length > 0 then l else st.episodeRewards
        | none => st.episodeRewards
      valueFunction :=
        match msg.sample_values with
        | some sv => sv
        | none => st.valueFunction }
  else if msg.type = "dp_iteration" then
    { st with
      currentIteration := jsOrNat msg.iteration 0
      currentDelta := jsOrQ msg.delta 0
      avgValue := jsOrQ msg.avg_value 0
      deltaHistory :=
        match msg.delta with
        | some d => st.deltaHistory ++ [d]
        | none => st.deltaHistory
      progress := dpProgress msg.delta msg.converged
      valueFunction :=
        match msg.sample_values with
        | some sv => sv
        | none => st.valueFunction }
  else if msg.type = "training_complete" then
    { st with
      isTraining := false
      progress := 100
      valueFunction :=
        match msg.value_function with
        | some vf => vf
        | none => st.valueFunction
      policy :=
        match msg.policy with
        | some p => p
        | none => st.policy
      episodeRewards :=
        match msg.episode_rewards with
        | some l => l
        | none => st.episodeRewards
      isTrained := true }
  else if msg.type = "training_stopped" then
    { st with isTraining := false }
  else if msg.type = "error" then
    { st with isTraining := false }
  else st

/-- C6: a `training_progress` or `dp_iteration` message updates only the
sampled value function, the progress, and per-increment statistics — the
stored policy, the isTrained flag, the current position, the training flag,
the trajectory, and the environment are untouched, and the value function can
only change to the message's `sample_values`. Moreover, for every message
type other than `training_complete` the policy and isTrained are unchanged
and the value function changes only to `sample_values`; the full
`value_function`, the `policy`, and `isTrained = true` are applied only by the
`training_complete` branch. -/
theorem c6_progress_frame_effect (st : HandlerState) (msg : TrainingUpdate) :
    ((msg.type = "training_progress" ∨ msg.type = "dp_iteration") →
      (onMessage st msg).policy = st.policy ∧
      (onMessage st msg).isTrained = st.isTrained ∧
      (onMessage st msg).currentPosition = st.currentPosition ∧
      (onMessage st msg).isTraining = st.isTraining ∧
      (onMessage st msg).currentTrajectory = st.currentTrajectory ∧
      (onMessage st msg).currentEnvironment = st.currentEnvironment ∧
      ((onMessage st msg).valueFunction = st.valueFunction ∨
        msg.sample_values = some (onMessage st msg).valueFunction)) ∧
    (msg.type ≠ "training_complete" →
      (onMessage st msg).policy = st.policy ∧
      (onMessage st msg).isTrained = st.isTrained ∧
      ((onMessage st msg).valueFunction = st.valueFunction ∨
        msg.sample_values = some (onMessage st msg).valueFunction)) := by
  obtain ⟨ty, ep, te, pr, it, de, cv, sv, vf, po, av, ar, er, env, tr⟩ := msg
  constructor
  · rintro (h | h) <;> subst h <;>
      simp only [onMessage] <;> norm_num <;>
      cases sv <;> simp
  · intro h
    simp only [onMessage]
    split_ifs with h1 h2 h3 h4 h5 h6 h7 h8 h9 <;>
      simp_all <;>
      first
        | (cases tr <;> simp_all; split_ifs <;> simp_all)
        | (cases sv <;> simp_all)

/-- A handler state used to instantiate the frame-effect and progress
theorems on concrete inputs. -/
def handlerStateSample : HandlerState :=
  { valueFunction := [("(0, 0)", 1)]
    policy := [("(0, 0)", 2)]
    isTrained := false
    progress := 5
    currentPosition := (0, 0)
    isTraining := true
    currentEpisode := 1
    totalEpisodes := 10
    currentIteration := 0
    currentDelta := 0
    avgValue := 0
    avgReward := 0
    episodeRewards := []
    deltaHistory := []
    currentEnvironment := "gridworld"
    currentTrajectory := [] }

/-- A `training_progress` message carrying sample values. -/
def progressMsgSample : TrainingUpdate :=
  { type := "training_progress"
    episode := some 2
    total_episodes := some 10
    progress := some 20
    iteration := none
    delta := none
    converged := none
    sample_values := some [("(1, 0)", 3)]
    value_function := none
    policy := none
    avg_value := some 1
    avg_reward := some 2
    episode_rewards := none
    environment := none
    trajectory := none }

/-- C6 witness: the frame-effect theorem applied to a concrete
`training_progress` message. -/
theorem c6_progress_frame_effect_witness :
    (onMessage handlerStateSample progressMsgSample).policy = handlerStateSample.policy ∧
    (onMessage handlerStateSample progressMsgSample).isTrained = handlerStateSample.isTrained ∧
    (onMessage handlerStateSample progressMsgSample).currentPosition = handlerStateSample.currentPosition ∧
    (onMessage handlerStateSample progressMsgSample).isTraining = handlerStateSample.isTraining ∧
    (onMessage handlerStateSample progressMsgSample).currentTrajectory = handlerStateSample.currentTrajectory ∧
    (onMessage handlerStateSample progressMsgSample).currentEnvironment = handlerStateSample.currentEnvironment ∧
    ((onMessage handlerStateSample progressMsgSample).valueFunction = handlerStateSample.valueFunction ∨
      progressMsgSample.sample_values = some (onMessage handlerStateSample progressMsgSample).valueFunction) :=
  (c6_progress_frame_effect handlerStateSample progressMsgSample).1 (Or.inl rfl)

/-- A `dp_iteration` message reporting delta 0 with converged false. -/
def dpIterMsgZeroDelta : TrainingUpdate :=
  { type := "dp_iteration"
    episode := none
    total_episodes := none
    progress := none
    iteration := some 7
    delta := some 0
    converged := some false
    sample_values := none
    value_function := none
    policy := none
    avg_value := none
    avg_reward := none
    episode_rewards := none
    environment := none
    trajectory := none }

/-- The progress formula exactly as the claim words it:
`min(95, (1 - min(delta, 1)) * 100)`. -/
def claimedDpProgressFormula (delta : ℚ) : ℚ :=
  min 95 ((1 - min delta 1) * 100)

/-- C10 counterexample: for a `dp_iteration` message with `delta = 0` and
`converged = false`, the code computes `data.delta || 1 = 1` and dispatches
progress 0, while the claim's formula `min(95, (1 - min(delta, 1))·100)`
gives 95. -/
theorem c10_zero_delta_counterexample :
    (onMessage handlerStateSample dpIterMsgZeroDelta).progress = 0 ∧
    claimedDpProgressFormula 0 = 95 ∧ (0 : ℚ) ≠ 95 := by
  refine ⟨?_, ?_, by norm_num⟩
  · have h : (onMessage handlerStateSample dpIterMsgZeroDelta).progress
        = dpProgress (some 0) (some false) := rfl
    rw [h]
    simp [dpProgress, jsTruthyBool, jsOrQ, min_def]
  · simp [claimedDpProgressFormula, min_def]
    norm_num

/-- C10 amended: for every `dp_iteration` message the dispatched progress is
100 when `converged` is truthy and otherwise
`min(95, (1 - min(d, 1))·100)` where `d` is the reported delta when it is
present and nonzero and 1 otherwise (JavaScript `data.delta || 1`); in the
non-converged case this value always lies in [0, 95], so displayed DP
progress reaches 100 only upon convergence. -/
theorem c10_dp_progress_bounds (st : HandlerState) (msg : TrainingUpdate)
    (h : msg.type = "dp_iteration") :
    (onMessage st msg).progress = dpProgress msg.delta msg.converged ∧
    (jsTruthyBool msg.converged = true → (onMessage st msg).progress = 100) ∧
    (jsTruthyBool msg.converged = false →
      0 ≤ (onMessage st msg).progress ∧ (onMessage st msg).progress ≤ 95) := by
  obtain ⟨ty, ep, te, pr, it, de, cv, sv, vf, po, av, ar, er, env, tr⟩ := msg
  simp only at h
  subst h
  have hp : (onMessage st
      ⟨"dp_iteration", ep, te, pr, it, de, cv, sv, vf, po, av, ar, er, env, tr⟩).progress
      = dpProgress de cv := rfl
  refine ⟨hp, fun hc => ?_, fun hc => ?_⟩
  · rw [hp]
    simp [dpProgress, hc]
  · rw [hp]
    simp only [dpProgress, hc, if_false, Bool.false_eq_true]
    have h1 : min (jsOrQ de 1) 1 ≤ 1 := min_le_right _ _
    have h2 : (0 : ℚ) ≤ (1 - min (jsOrQ de 1) 1) * 100 :=
      mul_nonneg (by linarith) (by norm_num)
    exact ⟨le_min (by norm_num) h2, min_le_left _ _⟩

/-- C10 witness: the bounds theorem applied to the concrete zero-delta
message. -/
theorem c10_dp_progress_bounds_witness :
    (onMessage handlerStateSample dpIterMsgZeroDelta).progress
      = dpProgress dpIterMsgZeroDelta.delta dpIterMsgZeroDelta.converged ∧
    (jsTruthyBool dpIterMsgZeroDelta.converged = true →
      (onMessage handlerStateSample dpIterMsgZeroDelta).progress = 100) ∧
    (jsTruthyBool dpIterMsgZeroDelta.converged = false →
      0 ≤ (onMessage handlerStateSample dpIterMsgZeroDelta).progress ∧
      (onMessage handlerStateSample dpIterMsgZeroDelta).progress ≤ 95) :=
  c10_dp_progress_bounds handlerStateSample dpIterMsgZeroDelta rfl

/-- The parameter slice state shape of paramSlice.ts. -/
structure ParamState where
  gamma : ℚ
  theta : ℚ
  numEpisodes : ℚ
  alpha : ℚ
  epsilon : ℚ
deriving DecidableEq

/-- The `initialState` of paramSlice.ts. -/
def paramInitialState : ParamState :=
  { gamma := 0.99, theta := 0.0001, numEpisodes := 1000, alpha := 0.1, epsilon := 0.1 }

/-- The parameter object accepted by `simulatePolicy` in api.ts
(`SimulatePolicyParams`): `goalPosition` is required, the rest optional. -/
structure SimulatePolicyParams where
  maxSteps : Option ℚ
  agentPosition : Option (ℚ × ℚ)
  goalPosition : ℚ × ℚ
  gridSize : Option ℚ
  gamma : Option ℚ
  environment : Option String
  policy : Option (List (String × Nat))
  isSlippery : Option Bool
  numBrickRows : Option ℚ

/-- The request body built by `simulatePolicy` in api.ts; `agent_position` is
copied through unchanged (possibly `undefined`), `policy`, `is_slippery` and
`num_brick_rows` are attached only conditionally. -/
structure SimulatePolicyBody where
  max_steps : ℚ
  agent_position : Option (ℚ × ℚ)
  goal_position : ℚ × ℚ
  grid_size : ℚ
  gamma : ℚ
  environment : String
  policy : Option (List (String × Nat))
  is_slippery : Option Bool
  num_brick_rows : Option ℚ

/-- The body construction of `simulatePolicy` in api.ts (lines 108-129):
`??` defaults via `Option.getD`, and `policy` attached only when present and
nonempty. -/
def simulatePolicyBody (params : SimulatePolicyParams) : SimulatePolicyBody where
  max_steps := params.maxSteps.getD 100
  agent_position := params.agentPosition
  goal_position := params.goalPosition
  grid_size := params.gridSize.getD 4
  gamma := params.gamma.getD 0.99
  environment := params.environment.getD "gridworld"
  policy :=
    match params.policy with
    | some l => if l.length > 0 then some l else none
    | none => none
  is_slippery := params.isSlippery
  num_brick_rows := params.numBrickRows

/-- C8: with every optional parameter omitted, `runAlgorithm` fills
gamma 0.99, theta 0.0001, num_episodes 1000, alpha 0.1, epsilon 0.1,
grid_size 4 and `simulatePolicy` fills max_steps 100, grid_size 4,
gamma 0.99 — the numeric defaults coinciding with the Redux initial
parameter state — and the goal position defaults to
`[gridSize - 1, gridSize - 1]` for a supplied nonzero gridSize and to
`[3, 3]` otherwise. -/
theorem c8_request_body_defaults :
    (paramInitialState.gamma = 0.99 ∧ paramInitialState.theta = 0.0001 ∧
      paramInitialState.numEpisodes = 1000 ∧ paramInitialState.alpha = 0.1 ∧
      paramInitialState.epsilon = 0.1) ∧
    (∀ a : AlgorithmType,
      (runAlgorithmBody ⟨a, none, none, none, none, none, none, none, none⟩).gamma
        = paramInitialState.gamma ∧
      (runAlgorithmBody ⟨a, none, none, none, none, none, none, none, none⟩).theta
        = paramInitialState.theta ∧
      (runAlgorithmBody ⟨a, none, none, none, none, none, none, none, none⟩).num_episodes
        = paramInitialState.numEpisodes ∧
      (runAlgorithmBody ⟨a, none, none, none, none, none, none, none, none⟩).alpha
        = paramInitialState.alpha ∧
      (runAlgorithmBody ⟨a, none, none, none, none, none, none, none, none⟩).epsilon
        = paramInitialState.epsilon ∧
      (runAlgorithmBody ⟨a, none, none, none, none, none, none, none, none⟩).grid_size = 4 ∧
      (runAlgorithmBody ⟨a, none, none, none, none, none, none, none, none⟩).agent_position
        = (0, 0) ∧
      (runAlgorithmBody ⟨a, none, none, none, none, none, none, none, none⟩).goal_position
        = (3, 3)) ∧
    (∀ g : ℚ × ℚ,
      (simulatePolicyBody ⟨none, none, g, none, none, none, none, none, none⟩).max_steps
        = 100 ∧
      (simulatePolicyBody ⟨none, none, g, none, none, none, none, none, none⟩).grid_size
        = 4 ∧
      (simulatePolicyBody ⟨none, none, g, none, none, none, none, none, none⟩).gamma
        = paramInitialState.gamma ∧
      (simulatePolicyBody ⟨none, none, g, none, none, none, none, none, none⟩).environment
        = "gridworld") ∧
    (∀ (a : AlgorithmType) (gs : ℚ), gs ≠ 0 →
      (runAlgorithmBody ⟨a, some gs, none, none, none, none, none, none, none⟩).goal_position
        = (gs - 1, gs - 1)) ∧
    (∀ a : AlgorithmType,
      (runAlgorithmBody ⟨a, some 0, none, none, none, none, none, none, none⟩).goal_position
        = (3, 3)) := by
  refine ⟨⟨rfl, rfl, rfl, rfl, rfl⟩, fun a => ?_, fun g => ?_, fun a gs hgs => ?_, fun a => ?_⟩
  · exact ⟨rfl, rfl, rfl, rfl, rfl, rfl, rfl, rfl⟩
  · exact ⟨rfl, rfl, rfl, rfl⟩
  · simp [runAlgorithmBody, goalPositionDefault, jsTruthyNum, hgs]
  · rfl

/-- C8 witness: the defaults theorem applied at value iteration with the
concrete nonzero grid size 5. -/
theorem c8_request_body_defaults_witness :
    (5 : ℚ) ≠ 0 ∧
    (runAlgorithmBody
        ⟨AlgorithmType.value_iteration, some 5, none, none, none, none, none, none, none⟩).goal_position
      = (5 - 1, 5 - 1) :=
  ⟨by norm_num,
   c8_request_body_defaults.2.2.2.1 AlgorithmType.value_iteration 5 (by norm_num)⟩

/-- Decimal digit character: the character JavaScript renders for the digit
`d` (only applied to `d < 10`). -/
def digitChar : Nat → Char
  | 0 => '0'
  | 1 => '1'
  | 2 => '2'
  | 3 => '3'
  | 4 => '4'
  | 5 => '5'
  | 6 => '6'
  | 7 => '7'
  | 8 => '8'
  | _ + 9 => '9'

/-- JavaScript decimal rendering of a natural number (the semantics of the
template interpolation in createStateKey of canvasUtils.ts for integer
values): most significant digit first. -/
def natToDecimal (n : Nat) : List Char :=
  if n < 10 then [digitChar n]
  else natToDecimal (n / 10) ++ [digitChar (n % 10)]
termination_by n
decreasing_by exact Nat.div_lt_self (by omega) (by omega)

/-- Numeric value of a decimal digit character, as used by `parseInt`. -/
def charToDigit (c : Char) : Nat := c.toNat - 48

/-- JavaScript `parseInt` on a string of decimal digits. -/
def parseDecimal (cs : List Char) : Nat :=
  cs.foldl (fun acc c => acc * 10 + charToDigit c) 0

/-- Whitespace class of the regex `\s`, by code point (space, tab, newline,
carriage return, vertical tab, form feed). -/
def isSpaceJs (c : Char) : Bool :=
  c.toNat = 32 || c.toNat = 9 || c.toNat = 10 || c.toNat = 13 ||
  c.toNat = 11 || c.toNat = 12

/-- Digit characters are decimal digits and not whitespace, and invert back to
their value. -/
theorem digitChar_spec (d : Nat) (h : d < 10) :
    (digitChar d).isDigit = true ∧ isSpaceJs (digitChar d) = false ∧
    charToDigit (digitChar d) = d := by
  interval_cases d <;> refine ⟨by decide, by decide, by decide⟩

/-- Every character of a decimal rendering is a digit and not whitespace. -/
theorem natToDecimal_mem (n : Nat) :
    ∀ c ∈ natToDecimal n, c.isDigit = true ∧ isSpaceJs c = false := by
  induction n using Nat.strong_induction_on with
  | _ n ih =>
    rw [natToDecimal]
    split
    · intro c hc
      rw [List.mem_singleton] at hc
      subst hc
      exact ⟨(digitChar_spec n (by omega)).1, (digitChar_spec n (by omega)).2.1⟩
    · intro c hc
      rw [List.mem_append] at hc
      rcases hc with hc | hc
      · exact ih (n / 10) (Nat.div_lt_self (by omega) (by omega)) c hc
      · rw [List.mem_singleton] at hc
        subst hc
        exact ⟨(digitChar_spec _ (Nat.mod_lt _ (by omega))).1,
               (digitChar_spec _ (Nat.mod_lt _ (by omega))).2.1⟩

/-- A decimal rendering is never empty. -/
theorem natToDecimal_ne_nil (n : Nat) : natToDecimal n ≠ [] := by
  rw [natToDecimal]
  split
  · simp
  · simp

/-- Parsing after appending one digit multiplies by ten and adds it. -/
theorem parseDecimal_append_digit (cs : List Char) (c : Char) :
    parseDecimal (cs ++ [c]) = parseDecimal cs * 10 + charToDigit c := by
  simp [parseDecimal, List.foldl_append]

/-- Decimal round trip: parsing the rendering of `n` gives back `n`. -/
theorem parseDecimal_natToDecimal (n : Nat) :
    parseDecimal (natToDecimal n) = n := by
  induction n using Nat.strong_induction_on with
  | _ n ih =>
    rw [natToDecimal]
    split
    · rename_i h
      simp [parseDecimal, (digitChar_spec n h).2.2]
    · rename_i h
      rw [parseDecimal_append_digit,
          ih (n / 10) (Nat.div_lt_self (by omega) (by omega)),
          (digitChar_spec (n % 10) (Nat.mod_lt _ (by omega))).2.2]
      omega

/-- List.takeWhile stops exactly at the first failing element. -/
theorem takeWhile_append_stop (p : Char → Bool) (l1 : List Char) (b : Char)
    (l2 : List Char) (h1 : ∀ a ∈ l1, p a = true) (h2 : p b = false) :
    (l1 ++ b :: l2).takeWhile p = l1 := by
  induction l1 with
  | nil => simp [List.takeWhile, h2]
  | cons a t iht =>
    have ha : p a = true := h1 a (List.mem_cons_self a t)
    simp only [List.cons_append, List.takeWhile_cons, ha, if_true]
    rw [iht (fun x hx => h1 x (List.mem_cons_of_mem a hx))]

/-- List.dropWhile drops exactly up to the first failing element. -/
theorem dropWhile_append_stop (p : Char → Bool) (l1 : List Char) (b : Char)
    (l2 : List Char) (h1 : ∀ a ∈ l1, p a = true) (h2 : p b = false) :
    (l1 ++ b :: l2).dropWhile p = b :: l2 := by
  induction l1 with
  | nil => simp [List.dropWhile, h2]
  | cons a t iht =>
    have ha : p a = true := h1 a (List.mem_cons_self a t)
    simp only [List.cons_append, List.dropWhile_cons, ha, if_true]
    exact iht (fun x hx => h1 x (List.mem_cons_of_mem a hx))


/-- A decimal rendering has isEmpty false. -/
theorem natToDecimal_isEmpty (n : Nat) : (natToDecimal n).isEmpty = false := by
  cases h : natToDecimal n with
  | nil => exact absurd h (natToDecimal_ne_nil n)
  | cons a t => rfl

/-- One attempt of the regex `\((\d+),\s*(\d+)\)` of parseStateKey at the
start of the input: `\d+` and `\s*` are greedy, but since the digit, comma,
whitespace and closing-parenthesis classes are pairwise disjoint the greedy
scan needs no backtracking and is exactly takeWhile/dropWhile. Returns the
two capture groups on success. -/
def matchPairAt (cs : List Char) : Option (List Char × List Char) :=
  match cs with
  | [] => none
  | c0 :: rest =>
    if c0 = '(' then
      let ds1 := rest.takeWhile Char.isDigit
      if ds1.isEmpty then none
      else
        match rest.dropWhile Char.isDigit with
        | [] => none
        | c1 :: r2 =>
          if c1 = ',' then
            let r3 := r2.dropWhile isSpaceJs
            let ds2 := r3.takeWhile Char.isDigit
            if ds2.isEmpty then none
            else
              match r3.dropWhile Char.isDigit with
              | [] => none
              | c2 :: _ => if c2 = ')' then some (ds1, ds2) else none
          else none
    else none

/-- JavaScript `String.prototype.match` with a non-global, non-anchored
regex: try each start position left to right and return the first match. -/
def regexSearchPair : List Char → Option (List Char × List Char)
  | [] => none
  | c :: rest =>
    match matchPairAt (c :: rest) with
    | some r => some r
    | none => regexSearchPair rest

/-- The `parseStateKey` function of canvasUtils.ts: match the key against
`\((\d+),\s*(\d+)\)` and `parseInt` the two capture groups; `null` when the
regex does not match. -/
def parseStateKey (key : String) : Option (Nat × Nat) :=
  (regexSearchPair key.data).map (fun g => (parseDecimal g.1, parseDecimal g.2))

/-- The `createStateKey` function of canvasUtils.ts: the textual form
`(x, y)`. -/
def createStateKey (x y : Nat) : String :=
  String.mk ('(' :: (natToDecimal x ++ (',' :: ' ' :: (natToDecimal y ++ [')']))))

/-- C5: for all natural numbers x and y, the textual state key round-trips
through the parser back to the same coordinates. -/
theorem c5_state_key_roundtrip (x y : Nat) :
    parseStateKey (createStateKey x y) = some (x, y) := by
  have hx := natToDecimal_mem x
  have hy := natToDecimal_mem y
  have hxdig : ∀ a ∈ natToDecimal x, a.isDigit = true := fun a ha => (hx a ha).1
  have hydig : ∀ a ∈ natToDecimal y, a.isDigit = true := fun a ha => (hy a ha).1
  have htake1 :
      (natToDecimal x ++ (',' :: ' ' :: (natToDecimal y ++ [')']))).takeWhile Char.isDigit
        = natToDecimal x :=
    takeWhile_append_stop Char.isDigit (natToDecimal x) ','
      (' ' :: (natToDecimal y ++ [')'])) hxdig (by decide)
  have hdrop1 :
      (natToDecimal x ++ (',' :: ' ' :: (natToDecimal y ++ [')']))).dropWhile Char.isDigit
        = ',' :: ' ' :: (natToDecimal y ++ [')']) :=
    dropWhile_append_stop Char.isDigit (natToDecimal x) ','
      (' ' :: (natToDecimal y ++ [')'])) hxdig (by decide)
  obtain ⟨cy, ty, hcy⟩ := List.exists_cons_of_ne_nil (natToDecimal_ne_nil y)
  have hcymem : cy ∈ natToDecimal y := by rw [hcy]; exact List.mem_cons_self cy ty
  have hcyspace : isSpaceJs cy = false := (hy cy hcymem).2
  have hdropspace :
      List.dropWhile isSpaceJs (' ' :: (natToDecimal y ++ [')']))
        = natToDecimal y ++ [')'] := by
    simp only [List.dropWhile_cons, show isSpaceJs ' ' = true from rfl, if_true]
    rw [hcy, List.cons_append]
    simp only [List.dropWhile_cons, hcyspace, Bool.false_eq_true, if_false]
  have htake2 :
      (natToDecimal y ++ [')']).takeWhile Char.isDigit = natToDecimal y :=
    takeWhile_append_stop Char.isDigit (natToDecimal y) ')' [] hydig (by decide)
  have hdrop2 :
      (natToDecimal y ++ [')']).dropWhile Char.isDigit = [')'] :=
    dropWhile_append_stop Char.isDigit (natToDecimal y) ')' [] hydig (by decide)
  have hmatch :
      matchPairAt ('(' :: (natToDecimal x ++ (',' :: ' ' :: (natToDecimal y ++ [')']))))
        = some (natToDecimal x, natToDecimal y) := by
    simp only [matchPairAt, htake1, hdrop1, natToDecimal_isEmpty, hdropspace,
      htake2, hdrop2, Bool.false_eq_true, if_false, reduceCtorEq]
    norm_num
  have hsearch :
      regexSearchPair ('(' :: (natToDecimal x ++ (',' :: ' ' :: (natToDecimal y ++ [')']))))
        = some (natToDecimal x, natToDecimal y) := by
    simp only [regexSearchPair, hmatch]
  unfold parseStateKey createStateKey
  simp only [hsearch]
  simp [parseDecimal_natToDecimal]

/-- Events a training session emits (spec section 6): progress after each
increment, then one terminal event. `cancelled` carries the number of
completed increments, standing for the partial results accumulated so far. -/
inductive SessionEvent where
  | progress (unitIndex : Nat)
  | completed
  | cancelled (unitsDone : Nat)
  | failed
deriving DecidableEq

/-- Whether the cooperative cancellation flag is observed as set after
increment `i`: `stop()` issued at increment `k` is seen at every boundary
from `k` on. -/
def cancelRequested (stopAt : Option Nat) (i : Nat) : Bool :=
  match stopAt with
  | some k => k ≤ i
  | none => false

/-- Modelled from the spec: the Training Session increment loop of spec
sections 4.5 and 5 (the backend session driver is not under src/). With
`unitsLeft` increments still to run and `i` the index of the next one, the
session runs one increment, emits a progress event, then checks the
cancellation flag (emit first, then check); if the flag is set it emits a
terminal `cancelled` event with partial results and stops, and when all
increments are done it emits the terminal `completed` event. -/
def sessionRun (unitsLeft : Nat) (i : Nat) (stopAt : Option Nat) : List SessionEvent :=
  match unitsLeft with
  | 0 => [SessionEvent.completed]
  | r + 1 =>
    SessionEvent.progress i ::
      (if cancelRequested stopAt i then [SessionEvent.cancelled i]
       else sessionRun r (i + 1) stopAt)

/-- The full event trace of a session with `totalUnits` increments whose
stop request arrives at increment `stopAt` (if any); increments are numbered
from 1. -/
def sessionTrace (totalUnits : Nat) (stopAt : Option Nat) : List SessionEvent :=
  sessionRun totalUnits 1 stopAt

/-- The progress events for increments `start, start+1, ..., start+len-1`. -/
def progressSeq (start len : Nat) : List SessionEvent :=
  match len with
  | 0 => []
  | l + 1 => SessionEvent.progress start :: progressSeq (start + 1) l

/-- No completed event occurs among progress events. -/
theorem completed_not_mem_progressSeq (start len : Nat) :
    SessionEvent.completed ∉ progressSeq start len := by
  induction len generalizing start with
  | zero => simp [progressSeq]
  | succ l ih =>
    simp only [progressSeq, List.mem_cons]
    rintro (h | h)
    · exact SessionEvent.noConfusion h
    · exact ih (start + 1) h

/-- Trace shape of a run whose stop request arrives at increment `k` with
`i ≤ k` and at least `k - i + 1` increments left. -/
theorem sessionRun_stopped (r i k : Nat) (h1 : i ≤ k) (h2 : k < i + r) :
    sessionRun r i (some k)
      = progressSeq i (k - i + 1) ++ [SessionEvent.cancelled k] := by
  induction r generalizing i with
  | zero => omega
  | succ r ih =>
    simp only [sessionRun, cancelRequested]
    by_cases hk : k ≤ i
    · have hik : i = k := le_antisymm h1 hk
      subst hik
      simp only [decide_eq_true_eq, if_pos hk]
      have hlen : i - i + 1 = 1 := by omega
      rw [hlen]
      simp [progressSeq]
    · have hik : i < k := by omega
      simp only [decide_eq_true_eq, if_neg hk]
      rw [ih (i + 1) (by omega) (by omega)]
      have hlen : k - i + 1 = (k - (i + 1) + 1) + 1 := by omega
      rw [hlen]
      simp [progressSeq]

/-- C2: if `stop_training` is issued at increment `k` after the first
progress event (`1 ≤ k`) and before completion (`k < totalUnits`), the
session's trace is exactly the progress events of increments 1..k followed
by a single terminal `cancelled` event carrying the k completed increments'
partial results — in particular no further progress and no completed event
is emitted after the cancellation. -/
theorem c2_stop_training_cancels (totalUnits k : Nat)
    (h1 : 1 ≤ k) (h2 : k < totalUnits) :
    sessionTrace totalUnits (some k)
      = progressSeq 1 k ++ [SessionEvent.cancelled k] ∧
    SessionEvent.completed ∉ sessionTrace totalUnits (some k) := by
  have hshape : sessionTrace totalUnits (some k)
      = progressSeq 1 k ++ [SessionEvent.cancelled k] := by
    have := sessionRun_stopped totalUnits 1 k h1 (by omega)
    rw [sessionTrace, this]
    have hlen : k - 1 + 1 = k := by omega
    rw [hlen]
  refine ⟨hshape, ?_⟩
  rw [hshape]
  simp only [List.mem_append, List.mem_singleton]
  rintro (h | h)
  · exact completed_not_mem_progressSeq 1 k h
  · exact SessionEvent.noConfusion h

/-- C2 witness: the cancellation theorem applied to a session of 5 increments
stopped at increment 2. -/
theorem c2_stop_training_cancels_witness :
    sessionTrace 5 (some 2) = progressSeq 1 2 ++ [SessionEvent.cancelled 2] ∧
    SessionEvent.completed ∉ sessionTrace 5 (some 2) :=
  c2_stop_training_cancels 5 2 (by decide) (by decide)

/-- One recorded SARSA transition: the state and action executed on this
step, the observed reward and next state, and the next action selected by
the behavior policy before the TD update. -/
structure SarsaTransition (S A : Type) where
  state : S
  action : A
  reward : ℚ
  nextState : S
  nextAction : A

/-- Modelled from the spec: the SARSA inner loop of spec section 4.4 (the
backend TD engine is not under src/). Starting from state `s` holding the
already-selected action `a`, each step applies the environment, selects the
next action `A2` from Q at the next state via the behavior policy
(`selectAction`, instantiated by ε-greedy; the invariant proved below does
not depend on the selection rule), performs the TD update
`Q(S,A) += alpha * (R + gamma * Q(S2,A2) * (1 - done) - Q(S,A))`, and then
continues the episode from `(S2, A2)` — the selected action is the one
executed next, with no resampling. The episode ends on `done` or when the
step cap `fuel` is exhausted; it returns the recorded transitions, the
updated Q-table and the advanced randomness state. -/
def sarsaEpisode {S A R : Type} [DecidableEq S] [DecidableEq A]
    (step : S → A → S × ℚ × Bool)
    (selectAction : (S → A → ℚ) → S → R → A × R)
    (alpha gamma : ℚ) :
    Nat → (S → A → ℚ) → S → A → R →
      List (SarsaTransition S A) × (S → A → ℚ) × R
  | 0, Q, _, _, rng => ([], Q, rng)
  | fuel + 1, Q, s, a, rng =>
    let res := step s a
    let s2 := res.1
    let r := res.2.1
    let done := res.2.2
    let sel := selectAction Q s2 rng
    let a2 := sel.1
    let rng2 := sel.2
    let Q2 := fun st ac =>
      if st = s ∧ ac = a then
        Q s a + alpha * (r + gamma * Q s2 a2 * (1 - if done then 1 else 0) - Q s a)
      else Q st ac
    if done then ([⟨s, a, r, s2, a2⟩], Q2, rng2)
    else
      let rest := sarsaEpisode step selectAction alpha gamma fuel Q2 s2 a2 rng2
      (⟨s, a, r, s2, a2⟩ :: rest.1, rest.2.1, rest.2.2)

/-- The first transition recorded by a SARSA episode starts at the state and
already-selected action the episode was entered with. -/
theorem sarsaEpisode_head {S A R : Type} [DecidableEq S] [DecidableEq A]
    (step : S → A → S × ℚ × Bool)
    (selectAction : (S → A → ℚ) → S → R → A × R)
    (alpha gamma : ℚ) (fuel : Nat) (Q : S → A → ℚ) (s : S) (a : A) (rng : R)
    (t : SarsaTransition S A) (rest : List (SarsaTransition S A))
    (h : (sarsaEpisode step selectAction alpha gamma fuel Q s a rng).1 = t :: rest) :
    t.state = s ∧ t.action = a := by
  cases fuel with
  | zero => exact absurd h (by simp [sarsaEpisode])
  | succ f =>
    simp only [sarsaEpisode] at h
    split at h
    · rw [List.cons_eq_cons] at h
      rw [← h.1]
      exact ⟨rfl, rfl⟩
    · rw [List.cons_eq_cons] at h
      rw [← h.1]
      exact ⟨rfl, rfl⟩

/-- C3: in every SARSA episode — over any environment step function, any
action-selection rule (in particular ε-greedy), any hyperparameters, any
initial Q-table and any step cap — every pair of consecutive recorded
transitions agrees: the next action `A2` selected before the TD update of a
transition is exactly the action executed on the following environment step,
and the episode continues from the reached state. -/
theorem c3_sarsa_on_policy {S A R : Type} [DecidableEq S] [DecidableEq A]
    (step : S → A → S × ℚ × Bool)
    (selectAction : (S → A → ℚ) → S → R → A × R)
    (alpha gamma : ℚ) (fuel : Nat) (Q : S → A → ℚ) (s : S) (a : A) (rng : R) :
    List.Chain' (fun t u => t.nextAction = u.action ∧ t.nextState = u.state)
      (sarsaEpisode step selectAction alpha gamma fuel Q s a rng).1 := by
  induction fuel generalizing Q s a rng with
  | zero => simp [sarsaEpisode]
  | succ f ih =>
    simp only [sarsaEpisode]
    split
    · exact List.chain'_singleton _
    · rw [List.chain'_cons']
      refine ⟨?_, ih _ _ _ _⟩
      intro b hb
      cases hrest : (sarsaEpisode step selectAction alpha gamma f _ _ _ _).1 with
      | nil => rw [hrest] at hb; simp at hb
      | cons t rest =>
        rw [hrest] at hb
        simp only [List.head?_cons, Option.mem_def, Option.some_inj] at hb
        subst hb
        have hh := sarsaEpisode_head step selectAction alpha gamma f _ _ _ _ t rest hrest
        exact ⟨hh.2.symm, hh.1.symm⟩

/-- A finite MDP as the DP engines consume it (spec section 4.1): an explicit
enumeration of states and actions, the full one-step transition model
`(probability, next state, reward, terminated)`, and the terminal-state
predicate. -/
structure FiniteMDP (σ : Type) where
  states : List σ
  actions : List Nat
  transitionModel : σ → Nat → List (ℚ × σ × ℚ × Bool)
  isTerminal : σ → Bool

/-- Maximum of a list of rationals (0 for the empty list). -/
def maxOrZero (l : List ℚ) : ℚ :=
  match l with
  | [] => 0
  | h :: t => t.foldl max h

/-- Modelled from the spec: one Bellman backup of spec section 4.2,
`Σ_sp P(sp|s,a) [R(s,a,sp) + γ·V(sp)·(1 - terminated)]`. -/
def bellmanBackup {σ : Type} (M : FiniteMDP σ) (gamma : ℚ) (V : σ → ℚ)
    (s : σ) (a : Nat) : ℚ :=
  ((M.transitionModel s a).map
    (fun e => e.1 * (e.2.2.1 + gamma * V e.2.1 * (1 - if e.2.2.2 then 1 else 0)))).sum

/-- Modelled from the spec: one full synchronous Value Iteration sweep
(spec section 4.2): `V2(s) = max_a backup(s, a)` with terminal states pinned
at 0, returning the new value function and
`delta = max_s |V2(s) - V(s)|`. -/
def viSweep {σ : Type} (M : FiniteMDP σ) (gamma : ℚ) (V : σ → ℚ) :
    (σ → ℚ) × ℚ :=
  let V2 := fun s =>
    if M.isTerminal s then 0
    else maxOrZero (M.actions.map (bellmanBackup M gamma V s))
  (V2, maxOrZero (M.states.map (fun s => |V2 s - V s|)))

/-- Terminal outcome of the Value Iteration engine: `converged` with the
final value function and final delta, or `failed` carrying the delta of the
last sweep performed before the safety bound ran out. -/
inductive VIOutcome (σ : Type) where
  | converged (V : σ → ℚ) (delta : ℚ)
  | failed (lastDelta : ℚ)

/-- Modelled from the spec: the Value Iteration engine loop of spec
section 4.2 (the backend DP engine is not under src/). At most `cap` sweeps
(the sweep-count safety bound) are run; after each sweep the engine stops
with `converged` when `delta < theta`, and when the bound is exhausted it
stops with `failed` carrying the last observed delta. -/
def viLoop {σ : Type} (M : FiniteMDP σ) (gamma theta : ℚ) :
    Nat → (σ → ℚ) → ℚ → VIOutcome σ
  | 0, _, lastDelta => .failed lastDelta
  | cap + 1, V, _ =>
    let sw := viSweep M gamma V
    if sw.2 < theta then .converged sw.1 sw.2
    else viLoop M gamma theta cap sw.1 sw.2

/-- The delta of the last sweep a `cap`-bounded run performs when no early
convergence exit is taken: the unconditional `cap`-fold sweep iteration. -/
def viLastDelta {σ : Type} (M : FiniteMDP σ) (gamma : ℚ) :
    Nat → (σ → ℚ) → ℚ → ℚ
  | 0, _, lastDelta => lastDelta
  | cap + 1, V, _ =>
    let sw := viSweep M gamma V
    viLastDelta M gamma cap sw.1 sw.2

/-- C4: for every finite MDP, every configuration and every safety bound,
the Value Iteration engine reaches a terminal outcome: either it converges
with a final delta strictly below theta within the sweep-count safety bound,
or the bound is exhausted (as with a misconfigured gamma = 1 that never
contracts below theta) and it reports `failed` carrying the delta value of
the last sweep performed — it neither loops forever nor returns an
unconverged result silently. -/
theorem c4_value_iteration_terminates {σ : Type} (M : FiniteMDP σ)
    (gamma theta : ℚ) (cap : Nat) (V : σ → ℚ) (d : ℚ) :
    (∃ Vf delta, viLoop M gamma theta cap V d = VIOutcome.converged Vf delta ∧
      delta < theta) ∨
    viLoop M gamma theta cap V d = VIOutcome.failed (viLastDelta M gamma cap V d) := by
  induction cap generalizing V d with
  | zero => exact Or.inr rfl
  | succ cap ih =>
    simp only [viLoop, viLastDelta]
    by_cases hconv : (viSweep M gamma V).2 < theta
    · exact Or.inl ⟨(viSweep M gamma V).1, (viSweep M gamma V).2,
        by rw [if_pos hconv], hconv⟩
    · rw [if_neg hconv]
      exact ih (viSweep M gamma V).1 (viSweep M gamma V).2
